import Mathlib

/-!
Shallow embedding of the detection-notification pipeline of
`apps/ai_detection/TestAPI.py` (class `TestAPI`): the per-frame debouncer
over `self.detection_status`, the alert allocator over `self.alert_counter`,
the recording-session guard (`start_recording`), and the fan-out dispatch
endpoints (`send_message_to_whatsapp_endpoint` and friends).

Times are modelled as integers (seconds), confidences as rationals, and the
`detection_status` dict as a finite partial map `String → Option Int`.
-/

namespace NotificationEngine

/-- The debounce cooldown window: the literal `10` seconds used in
`process_frame` (`elapsed >= 10`). -/
def cooldown : Int := 10

/-- `self.detection_status`: mapping label → last-alert timestamp. -/
abbrev DetectionStatus := String → Option Int

/-- `self.detection_status[violation] = current_time` (dict assignment). -/
def updStatus (l : String) (t : Int) (ds : DetectionStatus) : DetectionStatus :=
  fun k => if k = l then some t else ds k

/-- First debounce loop of `process_frame` (lines 569-577): iterate over the
current detected-label set; a label absent from the map, or present with
`elapsed >= 10`, gets its timestamp set to `now` and is appended to
`new_detections`; otherwise it is left untouched (duplicate). -/
def updateActive (now : Int) : List String → DetectionStatus → DetectionStatus × List String
  | [], ds => (ds, [])
  | l :: rest, ds =>
    match ds l with
    | none =>
      let r := updateActive now rest (updStatus l now ds)
      (r.1, l :: r.2)
    | some t =>
      if now - t ≥ cooldown then
        let r := updateActive now rest (updStatus l now ds)
        (r.1, l :: r.2)
      else
        updateActive now rest ds

/-- Second debounce loop of `process_frame` (lines 579-583): a label present
in the map but absent from the current detected set is deleted exactly when
`elapsed >= 10`; otherwise its entry is kept unchanged. -/
def evictAbsent (now : Int) (active : List String) (ds : DetectionStatus) : DetectionStatus :=
  fun k =>
    match ds k with
    | none => none
    | some t =>
      if k ∈ active then some t
      else if now - t ≥ cooldown then none
      else some t

/-- The whole debounce step of `process_frame` at time `now`: both loops in
order; returns the updated status map and the `new_detections` list. -/
def debounce (now : Int) (active : List String) (ds : DetectionStatus) :
    DetectionStatus × List String :=
  let r := updateActive now active ds
  (evictAbsent now active r.1, r.2)

/-- One raw detection from the YOLO model: a class label and a confidence. -/
structure Detection where
  label : String
  conf : ℚ
  deriving DecidableEq

/-- Detector output for one frame: either the detection list, or the message
of the exception caught by the `try`/`except` in `process_frame`. -/
abbrev DetectorOutput := Except String (List Detection)

/-- Build `current_detected = set(return_dict["violation"])`: on detector
failure the violation list stays empty; otherwise keep the labels whose
confidence is strictly above the threshold (`conf > self.confidence_threshold`),
deduplicated (the Python `set`). -/
def activeLabelSet (threshold : ℚ) : DetectorOutput → List String
  | .error _ => []
  | .ok dets => ((dets.filter (fun d => threshold < d.conf)).map (fun d => d.label)).dedup

/-- Decimal digits of `n`, most significant first, with explicit fuel so the
recursion is structural (`decDigitsAux n n` is always enough fuel). -/
def decDigitsAux : Nat → Nat → List Nat
  | _, 0 => []
  | 0, _ + 1 => []
  | f + 1, m + 1 => decDigitsAux f ((m + 1) / 10) ++ [(m + 1) % 10]

/-- Decimal digits of `n`, most significant first (`[]` for 0). -/
def decDigits (n : Nat) : List Nat := decDigitsAux n n

/-- A decimal digit as a character. -/
def digitChar (d : Nat) : Char := Char.ofNat (48 + d)

/-- A character back to a decimal digit. -/
def charDigit (c : Char) : Nat := c.toNat - 48

/-- Decimal character string of `n`, most significant first. -/
def decChars (n : Nat) : List Char := (decDigits n).map digitChar

/-- Python `f"{n:03d}"`: the decimal form of `n` left-padded with zeros to
width (at least) 3. -/
def pad3 (n : Nat) : List Char := List.replicate (3 - (decChars n).length) '0' ++ decChars n

/-- Value of a most-significant-first digit list. -/
def valDigits (l : List Nat) : Nat := l.foldl (fun a d => a * 10 + d) 0

/-- Decode a zero-padded decimal character string back to its number. -/
def unpadVal (l : List Char) : Nat := valDigits (l.map charDigit)

/-- The alert identifier `f"ALERT{counter:03d}"` of `process_frame` and
`start_recording`. -/
def alertId (counter : Nat) : String := "ALERT" ++ String.mk (pad3 counter)

/-- An alert record: id and human-readable description. -/
structure Alert where
  id : String
  description : String
  deriving DecidableEq

/-- Alert allocation in `process_frame` (lines 586-589): on a non-empty
`new_detections` list, build the alert id from the current counter, increment
the counter, and build the description; otherwise allocate nothing. -/
def alertStep (counter : Nat) (new_detections : List String) : Option Alert × Nat :=
  if new_detections.isEmpty then (none, counter)
  else
    (some { id := alertId counter,
            description := "Violation(s) detected: " ++ String.intercalate ", " new_detections },
     counter + 1)

/-- Abstraction of the `cv2.VideoWriter` opened by `start_recording`. -/
structure VideoWriter where
  path : String
  deriving DecidableEq

/-- The recording-related fields of the `TestAPI` object. -/
structure RecordingState where
  is_recording : Bool
  video_writer : Option VideoWriter
  deriving DecidableEq

/-- `TestAPI.start_recording` (lines 342-375): when no recording is active,
build the artifact path `data/videos/violations/violation_{alert_id}_{ts}.mp4`,
open a writer on it, set `is_recording`, and return the path; when a
recording is already active the body is skipped and the method returns
`None` with the state untouched. -/
def start_recording (alert_counter : Nat) (timestamp : String) (rs : RecordingState) :
    Option String × RecordingState :=
  if !rs.is_recording then
    let alert_id := alertId alert_counter
    let filepath := "data/videos/violations/violation_" ++ alert_id ++ "_" ++ timestamp ++ ".mp4"
    (some filepath, { is_recording := true, video_writer := some { path := filepath } })
  else
    (none, rs)

/-- The notification-mode configuration read in `TestAPI.__init__`. -/
structure Config where
  confidence_threshold : ℚ
  send_images : Bool
  send_videos : Bool
  send_text : Bool
  deriving DecidableEq

/-- The mutable pipeline state of the `TestAPI` object touched by
`process_frame`. -/
structure PipelineState where
  detection_status : DetectionStatus
  alert_counter : Nat
  is_recording : Bool
  video_writer : Option VideoWriter

/-- Observable per-frame effects of `process_frame`: the `new_detections`
list, the allocated alert (if any), whether an image-send task was spawned,
the path returned by `start_recording` (if called successfully), and whether
a text-alert task was spawned. -/
structure FrameEffects where
  new_detections : List String
  alert : Option Alert
  image_task : Bool
  video_path : Option String
  text_task : Bool
  deriving DecidableEq

/-- `TestAPI.process_frame` (lines 526-611), per-frame state transition:
detector output → `current_detected` set → debounce step → on new
detections, allocate the alert, spawn the image task when `send_images`,
call `start_recording` when `send_videos and not is_recording` (with the
already-incremented counter, as the source does), and spawn the text task
when `send_text and not send_images and not send_videos`. -/
def processFrame (cfg : Config) (now : Int) (ts : String) (det : DetectorOutput)
    (st : PipelineState) : PipelineState × FrameEffects :=
  let current_detected := activeLabelSet cfg.confidence_threshold det
  let r := debounce now current_detected st.detection_status
  let new_detections := r.2
  if new_detections.isEmpty then
    ({ st with detection_status := r.1 },
     { new_detections := [], alert := none, image_task := false,
       video_path := none, text_task := false })
  else
    let a := alertStep st.alert_counter new_detections
    let recPair :=
      if cfg.send_videos && !st.is_recording then
        start_recording a.2 ts { is_recording := st.is_recording, video_writer := st.video_writer }
      else (none, { is_recording := st.is_recording, video_writer := st.video_writer })
    ({ detection_status := r.1, alert_counter := a.2,
       is_recording := recPair.2.is_recording, video_writer := recPair.2.video_writer },
     { new_detections := new_detections, alert := a.1, image_task := cfg.send_images,
       video_path := recPair.1,
       text_task := cfg.send_text && !cfg.send_images && !cfg.send_videos })

/-- One frame of input to the pipeline: time, timestamp string, detector
output. -/
abbrev FrameInput := Int × String × DetectorOutput

/-- The frame loop of `generate_frames`: fold `process_frame` over a list of
frames, collecting the per-frame effects. -/
def runFrames (cfg : Config) : List FrameInput → PipelineState → PipelineState × List FrameEffects
  | [], st => (st, [])
  | (now, ts, det) :: rest, st =>
    let r := processFrame cfg now ts det st
    let rr := runFrames cfg rest r.1
    (rr.1, r.2 :: rr.2)

/-- The alerts produced along a run. -/
def alertsOf (effs : List FrameEffects) : List Alert := effs.filterMap (fun e => e.alert)

/-- Outcome of one outbound HTTP post, as distinguished by the dispatcher:
an exception raised by the client, or a response with HTTP status code and
the JSON body's `success` flag and `message`. -/
inductive NetResponse where
  | exn (err : String)
  | http (status : Nat) (success : Bool) (msg : String)
  deriving DecidableEq

/-- One per-recipient entry of the `results` list built by the dispatch
loop. -/
structure RecipientOutcome where
  phone : String
  success : Bool
  error : Option String
  deriving DecidableEq

/-- One iteration of the dispatch loop (lines 293-320): post to the
recipient and classify the outcome — exception, HTTP error, or a 200
response whose body's `success` flag decides. -/
def attemptSend (net : String → NetResponse) (phone : String) : RecipientOutcome :=
  match net phone with
  | .exn e => { phone := phone, success := false, error := some e }
  | .http status ok msg =>
    if status = 200 then
      if ok then { phone := phone, success := true, error := none }
      else { phone := phone, success := false, error := some msg }
    else { phone := phone, success := false, error := some ("HTTP " ++ toString status) }

/-- Aggregate result of a completed dispatch loop: overall `success` flag,
`success_count`, and the per-recipient `results` list. -/
structure DispatchSummary where
  success : Bool
  success_count : Nat
  results : List RecipientOutcome
  deriving DecidableEq

/-- The dispatch loop plus aggregation (lines 290-335): attempt every
configured recipient in order, count the successes, and report overall
success exactly when `success_count > 0`. -/
def fanout (net : String → NetResponse) (phones : List String) : DispatchSummary :=
  let results := phones.map (attemptSend net)
  let success_count := (results.filter (fun r => r.success)).length
  { success := decide (0 < success_count), success_count := success_count, results := results }

/-- Return value of an endpoint handler: an early failure before the loop,
or the aggregate of a completed dispatch loop. -/
inductive EndpointResult where
  | earlyFailure (msg : String)
  | dispatched (summary : DispatchSummary)
  deriving DecidableEq

/-- The `success` flag of the returned JSON. -/
def EndpointResult.isSuccess : EndpointResult → Bool
  | .earlyFailure _ => false
  | .dispatched s => s.success

/-- The recipients to whom a network call was actually attempted: none on an
early failure, one per `results` entry otherwise. -/
def attemptedCalls : EndpointResult → List String
  | .earlyFailure _ => []
  | .dispatched s => s.results.map (fun r => r.phone)

/-- An uploaded file (image or video) as the endpoints see it. -/
structure UploadFile where
  filename : String
  content : String
  deriving DecidableEq

/-- `TestAPI.send_message_to_whatsapp_endpoint` (lines 271-339): reject a
missing message, then reject an empty recipient list, then run the dispatch
loop. -/
def send_message_to_whatsapp_endpoint (net : String → NetResponse) (message : String)
    (phones : List String) : EndpointResult :=
  if message = "" then .earlyFailure "No message provided"
  else if phones = [] then .earlyFailure "No phone numbers configured"
  else .dispatched (fanout net phones)

/-- `TestAPI.send_image_to_whatsapp_endpoint` (lines 190-269): reject a
missing image file, then reject an empty recipient list, then run the
dispatch loop. -/
def send_image_to_whatsapp_endpoint (net : String → NetResponse) (image : Option UploadFile)
    (phones : List String) : EndpointResult :=
  match image with
  | none => .earlyFailure "No image file provided"
  | some _ =>
    if phones = [] then .earlyFailure "No phone numbers configured"
    else .dispatched (fanout net phones)

/-- `TestAPI.send_video_to_whatsapp_endpoint` (lines 109-188): reject a
missing video file, then reject an empty recipient list, then run the
dispatch loop. -/
def send_video_to_whatsapp_endpoint (net : String → NetResponse) (video : Option UploadFile)
    (phones : List String) : EndpointResult :=
  match video with
  | none => .earlyFailure "No video file provided"
  | some _ =>
    if phones = [] then .earlyFailure "No phone numbers configured"
    else .dispatched (fanout net phones)

/-! ## Debouncer lemmas -/

theorem cooldown_pos : (0 : Int) < cooldown := by decide

theorem updStatus_ne (l : String) (t : Int) (ds : DetectionStatus) (k : String) (h : k ≠ l) :
    updStatus l t ds k = ds k := by
  simp [updStatus, h]

theorem updStatus_self (l : String) (t : Int) (ds : DetectionStatus) :
    updStatus l t ds l = some t := by
  simp [updStatus]

theorem updateActive_not_mem (now : Int) (active : List String) :
    ∀ (ds : DetectionStatus) (k : String), k ∉ active →
      (updateActive now active ds).1 k = ds k ∧ k ∉ (updateActive now active ds).2 := by
  induction active with
  | nil => intro ds k _; simp [updateActive]
  | cons l rest ih =>
    intro ds k hk
    have hkl : k ≠ l := fun h => hk (h ▸ List.mem_cons_self l rest)
    have hkr : k ∉ rest := fun h => hk (List.mem_cons_of_mem l h)
    rcases h : ds l with _ | t
    · have h1 := ih (updStatus l now ds) k hkr
      simp only [updateActive, h]
      exact ⟨(h1.1.trans (updStatus_ne l now ds k hkl)),
        by simp [List.mem_cons, hkl, h1.2]⟩
    · by_cases hc : now - t ≥ cooldown
      · have h1 := ih (updStatus l now ds) k hkr
        simp only [updateActive, h, if_pos hc]
        exact ⟨(h1.1.trans (updStatus_ne l now ds k hkl)),
          by simp [List.mem_cons, hkl, h1.2]⟩
      · have h1 := ih ds k hkr
        simp only [updateActive, h, if_neg hc]
        exact h1

theorem updateActive_duplicate (now : Int) (active : List String) :
    ∀ (ds : DetectionStatus) (k : String) (t : Int), ds k = some t → now - t < cooldown →
      (updateActive now active ds).1 k = some t ∧ k ∉ (updateActive now active ds).2 := by
  induction active with
  | nil => intro ds k t hds _; simpa [updateActive] using hds
  | cons l rest ih =>
    intro ds k t hds hlt
    by_cases hkl : k = l
    · subst hkl
      rcases h : ds k with _ | t0
      · rw [h] at hds; exact absurd hds (by simp)
      · rw [h] at hds
        have ht : t0 = t := by injection hds
        subst ht
        have hc : ¬ now - t0 ≥ cooldown := not_le.mpr hlt
        simp only [updateActive, h, if_neg hc]
        exact ih ds k t0 h hlt
    · rcases h : ds l with _ | t0
      · have h1 := ih (updStatus l now ds) k t ((updStatus_ne l now ds k hkl).trans hds) hlt
        simp only [updateActive, h]
        exact ⟨h1.1, by simp [List.mem_cons, hkl, h1.2]⟩
      · by_cases hc : now - t0 ≥ cooldown
        · have h1 := ih (updStatus l now ds) k t ((updStatus_ne l now ds k hkl).trans hds) hlt
          simp only [updateActive, h, if_pos hc]
          exact ⟨h1.1, by simp [List.mem_cons, hkl, h1.2]⟩
        · have h1 := ih ds k t hds hlt
          simp only [updateActive, h, if_neg hc]
          exact h1

theorem updateActive_refresh (now : Int) (active : List String) :
    ∀ (ds : DetectionStatus) (k : String), k ∈ active →
      (ds k = none ∨ ∃ t, ds k = some t ∧ now - t ≥ cooldown) →
      (updateActive now active ds).1 k = some now ∧ k ∈ (updateActive now active ds).2 := by
  induction active with
  | nil => intro ds k hk _; exact absurd hk (List.not_mem_nil k)
  | cons l rest ih =>
    intro ds k hk hds
    by_cases hkl : k = l
    · subst hkl
      have hafter : ∀ r : DetectionStatus × List String,
          r = updateActive now rest (updStatus k now ds) →
          r.1 k = some now ∧ k ∈ (k :: r.2) := by
        intro r hr
        subst hr
        by_cases hkr : k ∈ rest
        · have h1 := updateActive_duplicate now rest (updStatus k now ds) k now
            (updStatus_self k now ds) (by simpa using cooldown_pos)
          exact ⟨h1.1, List.mem_cons_self k _⟩
        · exact ⟨((updateActive_not_mem now rest _ k hkr).1).trans (updStatus_self k now ds),
            List.mem_cons_self k _⟩
      rcases h : ds k with _ | t0
      · simp only [updateActive, h]
        exact hafter _ rfl
      · rcases hds with hnone | ⟨t, hsome, hge⟩
        · rw [h] at hnone; exact absurd hnone (by simp)
        · rw [h] at hsome
          have ht : t0 = t := by injection hsome
          subst ht
          simp only [updateActive, h, if_pos hge]
          exact hafter _ rfl
    · have hkr : k ∈ rest := by
        rcases List.mem_cons.mp hk with h | h
        · exact absurd h hkl
        · exact h
      have hds2 : updStatus l now ds k = none
          ∨ ∃ t, updStatus l now ds k = some t ∧ now - t ≥ cooldown := by
        rw [updStatus_ne l now ds k hkl]; exact hds
      rcases h : ds l with _ | t0
      · have h1 := ih (updStatus l now ds) k hkr hds2
        simp only [updateActive, h]
        exact ⟨h1.1, List.mem_cons_of_mem l h1.2⟩
      · by_cases hc : now - t0 ≥ cooldown
        · have h1 := ih (updStatus l now ds) k hkr hds2
          simp only [updateActive, h, if_pos hc]
          exact ⟨h1.1, List.mem_cons_of_mem l h1.2⟩
        · have h1 := ih ds k hkr hds
          simp only [updateActive, h, if_neg hc]
          exact h1

theorem updateActive_mem_lt (now : Int) (active : List String) :
    ∀ (ds : DetectionStatus) (k : String) (t : Int), k ∈ active →
      (updateActive now active ds).1 k = some t → now - t < cooldown := by
  induction active with
  | nil => intro ds k t hk _; exact absurd hk (List.not_mem_nil k)
  | cons l rest ih =>
    intro ds k t hk hres
    by_cases hkr : k ∈ rest
    · rcases h : ds l with _ | t0
      · simp only [updateActive, h] at hres
        exact ih (updStatus l now ds) k t hkr hres
      · by_cases hc : now - t0 ≥ cooldown
        · simp only [updateActive, h, if_pos hc] at hres
          exact ih (updStatus l now ds) k t hkr hres
        · simp only [updateActive, h, if_neg hc] at hres
          exact ih ds k t hkr hres
    · have hkl : k = l := by
        rcases List.mem_cons.mp hk with h | h
        · exact h
        · exact absurd h hkr
      subst hkl
      rcases h : ds k with _ | t0
      · simp only [updateActive, h] at hres
        rw [(updateActive_not_mem now rest _ k hkr).1, updStatus_self k now ds] at hres
        have ht : now = t := by injection hres
        subst ht
        simpa using cooldown_pos
      · by_cases hc : now - t0 ≥ cooldown
        · simp only [updateActive, h, if_pos hc] at hres
          rw [(updateActive_not_mem now rest _ k hkr).1, updStatus_self k now ds] at hres
          have ht : now = t := by injection hres
          subst ht
          simpa using cooldown_pos
        · simp only [updateActive, h, if_neg hc] at hres
          rw [(updateActive_not_mem now rest _ k hkr).1, h] at hres
          have ht : t0 = t := by injection hres
          subst ht
          exact not_le.mp hc

theorem evictAbsent_mem (now : Int) (active : List String) (ds : DetectionStatus) (k : String)
    (h : k ∈ active) : evictAbsent now active ds k = ds k := by
  rcases hd : ds k with _ | t <;> simp [evictAbsent, hd, h]

theorem evictAbsent_not_mem (now : Int) (active : List String) (ds : DetectionStatus) (k : String)
    (t : Int) (h : k ∉ active) (hd : ds k = some t) :
    evictAbsent now active ds k = if now - t ≥ cooldown then none else some t := by
  simp [evictAbsent, hd, h]

theorem debounce_some_lt (now : Int) (active : List String) (ds : DetectionStatus) (k : String)
    (t : Int) (h : (debounce now active ds).1 k = some t) : now - t < cooldown := by
  simp only [debounce] at h
  rcases h1 : (updateActive now active ds).1 k with _ | t0
  · simp [evictAbsent, h1] at h
  · by_cases hk : k ∈ active
    · rw [evictAbsent_mem now active _ k hk, h1] at h
      have ht : t0 = t := by injection h
      subst ht
      exact updateActive_mem_lt now active ds k t0 hk h1
    · rw [evictAbsent_not_mem now active _ k t0 hk h1] at h
      by_cases hc : now - t0 ≥ cooldown
      · simp [hc] at h
      · rw [if_neg hc] at h
        have ht : t0 = t := by injection h
        subst ht
        exact not_le.mp hc

/-! ## Debouncer claim theorems -/

/-- Claim C1: for every label L and times t1 < t2 with t2 - t1 < cooldown, if
L triggered a new alert at t1 (DetectionStatus[L] = t1), presenting L in the
active-label set again at t2 classifies L as a duplicate: it is not in the
new-detections list, and DetectionStatus[L] stays t1. -/
theorem debounce_duplicate_suppressed (L : String) (t1 t2 : Int) (active : List String)
    (ds : DetectionStatus) (hds : ds L = some t1) (hmem : L ∈ active) (_hlt : t1 < t2)
    (hcool : t2 - t1 < cooldown) :
    L ∉ (debounce t2 active ds).2 ∧ (debounce t2 active ds).1 L = some t1 := by
  have h1 := updateActive_duplicate t2 active ds L t1 hds hcool
  refine ⟨?_, ?_⟩
  · simpa [debounce] using h1.2
  · simp only [debounce]
    rw [evictAbsent_mem t2 active _ L hmem]
    exact h1.1

/-- Witness for C1 at L = "fire", t1 = 0, t2 = 5, cooldown window 10. -/
theorem debounce_duplicate_suppressed_witness :
    "fire" ∉ (debounce 5 ["fire"] (fun k => if k = "fire" then some 0 else none)).2 ∧
    (debounce 5 ["fire"] (fun k => if k = "fire" then some 0 else none)).1 "fire" = some 0 :=
  debounce_duplicate_suppressed "fire" 0 5 ["fire"] (fun k => if k = "fire" then some 0 else none)
    (by decide) (by decide) (by decide) (by decide)

/-- Claim C2: for every label L and times t1, t2 with t2 - t1 >= cooldown and
DetectionStatus[L] = t1, presenting L in the active-label set at t2
classifies L as new again (it is in the new-detections list) and refreshes
DetectionStatus[L] to t2. -/
theorem debounce_realert_after_cooldown (L : String) (t1 t2 : Int) (active : List String)
    (ds : DetectionStatus) (hds : ds L = some t1) (hmem : L ∈ active)
    (hcool : t2 - t1 ≥ cooldown) :
    L ∈ (debounce t2 active ds).2 ∧ (debounce t2 active ds).1 L = some t2 := by
  have h1 := updateActive_refresh t2 active ds L hmem (Or.inr ⟨t1, hds, hcool⟩)
  refine ⟨?_, ?_⟩
  · simpa [debounce] using h1.2
  · simp only [debounce]
    rw [evictAbsent_mem t2 active _ L hmem]
    exact h1.1

/-- Witness for C2 at L = "fire", t1 = 0, t2 = 12, cooldown window 10. -/
theorem debounce_realert_after_cooldown_witness :
    "fire" ∈ (debounce 12 ["fire"] (fun k => if k = "fire" then some 0 else none)).2 ∧
    (debounce 12 ["fire"] (fun k => if k = "fire" then some 0 else none)).1 "fire" = some 12 :=
  debounce_realert_after_cooldown "fire" 0 12 ["fire"]
    (fun k => if k = "fire" then some 0 else none) (by decide) (by decide) (by decide)

/-- Claim C6: a label L present in DetectionStatus with timestamp t but
absent from the frame's active-label set is evicted exactly when
now - t >= cooldown, and otherwise its entry is left unchanged (timestamp
not refreshed); in either case L is not classified new. -/
theorem debounce_absent_eviction (L : String) (t now : Int) (active : List String)
    (ds : DetectionStatus) (hds : ds L = some t) (habs : L ∉ active) :
    L ∉ (debounce now active ds).2 ∧
    (debounce now active ds).1 L = (if now - t ≥ cooldown then none else some t) := by
  have h1 := updateActive_not_mem now active ds L habs
  refine ⟨?_, ?_⟩
  · simpa [debounce] using h1.2
  · simp only [debounce]
    rw [evictAbsent_not_mem now active _ L t habs (h1.1.trans hds)]

/-- Witness for C6: "fire" absent with elapsed 12 >= 10 is evicted; "smoke"
absent with elapsed 5 < 10 keeps its entry. -/
theorem debounce_absent_eviction_witness :
    ("fire" ∉ (debounce 12 [] (fun k => if k = "fire" then some 0 else none)).2 ∧
      (debounce 12 [] (fun k => if k = "fire" then some 0 else none)).1 "fire"
        = (if (12 : Int) - 0 ≥ cooldown then none else some 0)) ∧
    ("smoke" ∉ (debounce 5 [] (fun k => if k = "smoke" then some 0 else none)).2 ∧
      (debounce 5 [] (fun k => if k = "smoke" then some 0 else none)).1 "smoke"
        = (if (5 : Int) - 0 ≥ cooldown then none else some 0)) :=
  ⟨debounce_absent_eviction "fire" 0 12 [] (fun k => if k = "fire" then some 0 else none)
      (by decide) (by decide),
    debounce_absent_eviction "smoke" 0 5 [] (fun k => if k = "smoke" then some 0 else none)
      (by decide) (by decide)⟩

/-- Claim C10 (implicit invariant): after a completed frame-processing step
at time now, every label remaining in detection_status has a timestamp t
with now - t < cooldown; no entry older than the cooldown window survives
the frame. -/
theorem detection_status_freshness (cfg : Config) (now : Int) (ts : String)
    (det : DetectorOutput) (st : PipelineState) (L : String) (t : Int)
    (h : (processFrame cfg now ts det st).1.detection_status L = some t) :
    now - t < cooldown := by
  have hd : (processFrame cfg now ts det st).1.detection_status
      = (debounce now (activeLabelSet cfg.confidence_threshold det) st.detection_status).1 := by
    simp only [processFrame]
    split <;> rfl
  rw [hd] at h
  exact debounce_some_lt now _ st.detection_status L t h

/-- Witness for C10: a frame at time 12 that re-detects "fire" leaves its
timestamp at 12, and 12 - 12 < 10. -/
theorem detection_status_freshness_witness :
    (processFrame
        { confidence_threshold := 0, send_images := true, send_videos := false,
          send_text := true }
        12 "ts" (Except.ok [{ label := "fire", conf := 1 }])
        { detection_status := fun k => if k = "fire" then some 0 else none, alert_counter := 1,
          is_recording := false, video_writer := none }).1.detection_status "fire" = some 12 ∧
    (12 : Int) - 12 < cooldown :=
  ⟨by decide,
    detection_status_freshness
      { confidence_threshold := 0, send_images := true, send_videos := false,
        send_text := true }
      12 "ts" (Except.ok [{ label := "fire", conf := 1 }])
      { detection_status := fun k => if k = "fire" then some 0 else none, alert_counter := 1,
        is_recording := false, video_writer := none }
      "fire" 12 (by decide)⟩

/-! ## Detector failure, text fallback, recording exclusivity -/

/-- Claim C7: a frame on which the detector raises yields an empty
active-label set, the step still completes (no alert, no tasks, counter and
recording state untouched), and the debouncer is still presented with the
frame: entries of detection_status whose cooldown has expired are evicted
and the younger ones are kept unchanged. -/
theorem detector_failure_tolerated (cfg : Config) (now : Int) (ts : String) (e : String)
    (st : PipelineState) :
    activeLabelSet cfg.confidence_threshold (Except.error e) = [] ∧
    processFrame cfg now ts (Except.error e) st
      = ({ st with detection_status := evictAbsent now [] st.detection_status },
         { new_detections := [], alert := none, image_task := false,
           video_path := none, text_task := false }) ∧
    (∀ L t, st.detection_status L = some t →
      (processFrame cfg now ts (Except.error e) st).1.detection_status L
        = (if now - t ≥ cooldown then none else some t)) := by
  refine ⟨rfl, rfl, ?_⟩
  intro L t h
  exact evictAbsent_not_mem now [] st.detection_status L t (List.not_mem_nil L) h

/-- Witness for C7: with "fire" last alerted at time -5, a detector-failure
frame at time 7 still evicts it (elapsed 12 >= 10). -/
theorem detector_failure_tolerated_witness :
    (fun k => if k = "fire" then some (-5 : Int) else none) "fire" = some (-5 : Int) ∧
    (processFrame ⟨0, true, false, true⟩ 7 "ts" (Except.error "boom")
        ⟨fun k => if k = "fire" then some (-5 : Int) else none, 1, false,
          none⟩).1.detection_status "fire"
      = (if (7 : Int) - (-5) ≥ cooldown then none else some (-5)) :=
  ⟨by decide,
    (detector_failure_tolerated ⟨0, true, false, true⟩ 7 "ts" "boom"
        ⟨fun k => if k = "fire" then some (-5 : Int) else none, 1, false, none⟩).2.2
      "fire" (-5) (by decide)⟩

/-- Claim C8: on an alert-producing frame, the text-only notification task is
spawned exactly when the text channel is enabled and neither the image nor
the video channel is enabled. -/
theorem text_fallback_suppression (cfg : Config) (now : Int) (ts : String)
    (det : DetectorOutput) (st : PipelineState)
    (halert : (processFrame cfg now ts det st).2.alert.isSome = true) :
    (processFrame cfg now ts det st).2.text_task
      = (cfg.send_text && !cfg.send_images && !cfg.send_videos) := by
  simp only [processFrame] at halert ⊢
  by_cases h :
      (debounce now (activeLabelSet cfg.confidence_threshold det) st.detection_status).2.isEmpty
        = true
  · rw [if_pos h] at halert
    simp at halert
  · rw [if_neg h]

/-- Witness for C8: a frame alerting on "fire" with only the text channel
enabled spawns the text task. -/
theorem text_fallback_suppression_witness :
    (processFrame ⟨0, false, false, true⟩ 0 "ts" (Except.ok [⟨"fire", 1⟩])
        ⟨fun _ => none, 1, false, none⟩).2.alert.isSome = true ∧
    (processFrame ⟨0, false, false, true⟩ 0 "ts" (Except.ok [⟨"fire", 1⟩])
        ⟨fun _ => none, 1, false, none⟩).2.text_task
      = (true && !false && !false) :=
  ⟨by decide,
    text_fallback_suppression ⟨0, false, false, true⟩ 0 "ts" (Except.ok [⟨"fire", 1⟩])
      ⟨fun _ => none, 1, false, none⟩ (by decide)⟩

/-- Claim C9: a start-recording request while a recording is already active
is a no-op — `start_recording` returns `None` and leaves the state (flag,
writer) untouched; and on an alert fired while recording, `process_frame`
keeps the flag set, keeps the original writer, and obtains no new artifact
path. -/
theorem recording_session_exclusive :
    (∀ (counter : Nat) (ts : String) (rs : RecordingState), rs.is_recording = true →
      start_recording counter ts rs = (none, rs)) ∧
    (∀ (cfg : Config) (now : Int) (ts : String) (det : DetectorOutput) (st : PipelineState),
      st.is_recording = true →
        (processFrame cfg now ts det st).1.is_recording = true ∧
        (processFrame cfg now ts det st).1.video_writer = st.video_writer ∧
        (processFrame cfg now ts det st).2.video_path = none) := by
  constructor
  · intro counter ts rs h
    simp [start_recording, h]
  · intro cfg now ts det st h
    simp only [processFrame]
    by_cases hn :
        (debounce now (activeLabelSet cfg.confidence_threshold det) st.detection_status).2.isEmpty
          = true
    · rw [if_pos hn]
      exact ⟨h, rfl, rfl⟩
    · rw [if_neg hn]
      simp [h]

/-- Witness for C9: with a recording already active, `start_recording` is a
no-op and an alert-producing frame leaves the session untouched. -/
theorem recording_session_exclusive_witness :
    start_recording 2 "ts" ⟨true, some ⟨"p.mp4"⟩⟩ = (none, ⟨true, some ⟨"p.mp4"⟩⟩) ∧
    ((processFrame ⟨0, false, true, false⟩ 0 "ts" (Except.ok [⟨"fire", 1⟩])
        ⟨fun _ => none, 1, true, some ⟨"p.mp4"⟩⟩).1.is_recording = true ∧
      (processFrame ⟨0, false, true, false⟩ 0 "ts" (Except.ok [⟨"fire", 1⟩])
        ⟨fun _ => none, 1, true, some ⟨"p.mp4"⟩⟩).1.video_writer = some ⟨"p.mp4"⟩ ∧
      (processFrame ⟨0, false, true, false⟩ 0 "ts" (Except.ok [⟨"fire", 1⟩])
        ⟨fun _ => none, 1, true, some ⟨"p.mp4"⟩⟩).2.video_path = none) :=
  ⟨recording_session_exclusive.1 2 "ts" ⟨true, some ⟨"p.mp4"⟩⟩ (by decide),
    recording_session_exclusive.2 ⟨0, false, true, false⟩ 0 "ts" (Except.ok [⟨"fire", 1⟩])
      ⟨fun _ => none, 1, true, some ⟨"p.mp4"⟩⟩ (by decide)⟩

/-! ## Alert identifier arithmetic -/

theorem decDigitsAux_zero (f : Nat) : decDigitsAux f 0 = [] := by
  cases f <;> rfl

theorem decDigitsAux_fuel : ∀ n f : Nat, n ≤ f → decDigitsAux f n = decDigits n := by
  intro n
  induction n using Nat.strong_induction_on with
  | _ n ih =>
    intro f hf
    match n, f with
    | 0, f => rw [decDigitsAux_zero, decDigits, decDigitsAux_zero]
    | m + 1, 0 => exact absurd hf (by omega)
    | m + 1, f + 1 =>
      have hq : (m + 1) / 10 < m + 1 := Nat.div_lt_self (Nat.succ_pos m) (by omega)
      have h1 : decDigitsAux f ((m + 1) / 10) = decDigits ((m + 1) / 10) :=
        ih _ hq f (by omega)
      have h2 : decDigitsAux m ((m + 1) / 10) = decDigits ((m + 1) / 10) :=
        ih _ hq m (by omega)
      show decDigitsAux f ((m + 1) / 10) ++ [(m + 1) % 10]
        = decDigitsAux m ((m + 1) / 10) ++ [(m + 1) % 10]
      rw [h1, h2]

theorem decDigits_succ (m : Nat) :
    decDigits (m + 1) = decDigits ((m + 1) / 10) ++ [(m + 1) % 10] := by
  show decDigitsAux m ((m + 1) / 10) ++ [(m + 1) % 10] = _
  rw [decDigitsAux_fuel _ m (by
    have := Nat.div_lt_self (Nat.succ_pos m) (show 1 < 10 by omega)
    omega)]

theorem decDigits_lt_ten : ∀ n : Nat, ∀ d ∈ decDigits n, d < 10 := by
  intro n
  induction n using Nat.strong_induction_on with
  | _ n ih =>
    match n with
    | 0 => intro d hd; simp [decDigits, decDigitsAux] at hd
    | m + 1 =>
      intro d hd
      rw [decDigits_succ] at hd
      rcases List.mem_append.mp hd with h | h
      · exact ih ((m + 1) / 10) (Nat.div_lt_self (Nat.succ_pos m) (by omega)) d h
      · rw [List.mem_singleton.mp h]
        exact Nat.mod_lt _ (by omega)

theorem valDigits_append_digit (l : List Nat) (d : Nat) :
    valDigits (l ++ [d]) = valDigits l * 10 + d := by
  simp [valDigits, List.foldl_append]

theorem valDigits_decDigits : ∀ n : Nat, valDigits (decDigits n) = n := by
  intro n
  induction n using Nat.strong_induction_on with
  | _ n ih =>
    match n with
    | 0 => rfl
    | m + 1 =>
      rw [decDigits_succ, valDigits_append_digit,
        ih ((m + 1) / 10) (Nat.div_lt_self (Nat.succ_pos m) (by omega))]
      omega

theorem valDigits_replicate_zero_append (k : Nat) (l : List Nat) :
    valDigits (List.replicate k 0 ++ l) = valDigits l := by
  induction k with
  | zero => rfl
  | succ j ihj =>
    show valDigits (0 :: (List.replicate j 0 ++ l)) = valDigits l
    simpa [valDigits] using ihj

theorem charDigit_digitChar (d : Nat) (h : d < 10) : charDigit (digitChar d) = d := by
  interval_cases d <;> rfl

theorem unpadVal_pad3 (n : Nat) : unpadVal (pad3 n) = n := by
  have hmap : (decChars n).map charDigit = decDigits n := by
    rw [decChars, List.map_map]
    have : ∀ d ∈ decDigits n, (charDigit ∘ digitChar) d = id d := by
      intro d hd
      exact charDigit_digitChar d (decDigits_lt_ten n d hd)
    rw [List.map_congr_left this, List.map_id]
  rw [unpadVal, pad3, List.map_append, hmap, List.map_replicate]
  show valDigits (List.replicate _ (charDigit '0') ++ decDigits n) = n
  rw [show charDigit '0' = 0 from rfl, valDigits_replicate_zero_append, valDigits_decDigits]

theorem alertId_injective : Function.Injective alertId := by
  intro c1 c2 h
  have hdata : "ALERT".data ++ pad3 c1 = "ALERT".data ++ pad3 c2 := congrArg String.data h
  have hpad : pad3 c1 = pad3 c2 := List.append_cancel_left hdata
  calc c1 = unpadVal (pad3 c1) := (unpadVal_pad3 c1).symm
    _ = unpadVal (pad3 c2) := by rw [hpad]
    _ = c2 := unpadVal_pad3 c2

/-! ## Alert allocation lemmas -/

theorem processFrame_alert_spec (cfg : Config) (now : Int) (ts : String) (det : DetectorOutput)
    (st : PipelineState) :
    ((processFrame cfg now ts det st).2.alert = none
        ∧ (processFrame cfg now ts det st).1.alert_counter = st.alert_counter
        ∧ (processFrame cfg now ts det st).2.new_detections = [])
    ∨ (∃ d, (processFrame cfg now ts det st).2.alert
          = some { id := alertId st.alert_counter, description := d }
        ∧ (processFrame cfg now ts det st).1.alert_counter = st.alert_counter + 1
        ∧ (processFrame cfg now ts det st).2.new_detections ≠ []) := by
  simp only [processFrame]
  by_cases h :
      (debounce now (activeLabelSet cfg.confidence_threshold det) st.detection_status).2.isEmpty
        = true
  · rw [if_pos h]
    exact Or.inl ⟨rfl, rfl, rfl⟩
  · rw [if_neg h]
    refine Or.inr ⟨"Violation(s) detected: " ++ String.intercalate ", "
      (debounce now (activeLabelSet cfg.confidence_threshold det) st.detection_status).2, ?_, ?_, ?_⟩
    · simp only [alertStep, if_neg h]
    · simp only [alertStep, if_neg h]
    · intro hnil
      have hx : (debounce now (activeLabelSet cfg.confidence_threshold det)
          st.detection_status).2 = [] := hnil
      rw [hx] at h
      exact h rfl

theorem runFrames_alert_ids (cfg : Config) :
    ∀ (frames : List FrameInput) (st : PipelineState),
      ((alertsOf (runFrames cfg frames st).2).map (fun a => a.id))
        = (List.range' st.alert_counter (alertsOf (runFrames cfg frames st).2).length).map alertId
      ∧ (runFrames cfg frames st).1.alert_counter
        = st.alert_counter + (alertsOf (runFrames cfg frames st).2).length := by
  intro frames
  induction frames with
  | nil => intro st; simp [runFrames, alertsOf]
  | cons f rest ih =>
    intro st
    obtain ⟨now, ts, det⟩ := f
    have hrun : runFrames cfg ((now, ts, det) :: rest) st
        = ((runFrames cfg rest (processFrame cfg now ts det st).1).1,
           (processFrame cfg now ts det st).2
             :: (runFrames cfg rest (processFrame cfg now ts det st).1).2) := rfl
    rcases processFrame_alert_spec cfg now ts det st with ⟨h1, h2, _⟩ | ⟨d, h1, h2, _⟩
    · have ha : alertsOf ((processFrame cfg now ts det st).2
          :: (runFrames cfg rest (processFrame cfg now ts det st).1).2)
          = alertsOf (runFrames cfg rest (processFrame cfg now ts det st).1).2 := by
        simp [alertsOf, h1]
      have := ih (processFrame cfg now ts det st).1
      rw [hrun, ha]
      rw [h2] at this
      exact this
    · have ha : alertsOf ((processFrame cfg now ts det st).2
          :: (runFrames cfg rest (processFrame cfg now ts det st).1).2)
          = { id := alertId st.alert_counter, description := d }
            :: alertsOf (runFrames cfg rest (processFrame cfg now ts det st).1).2 := by
        simp [alertsOf, h1]
      have hih := ih (processFrame cfg now ts det st).1
      rw [h2] at hih
      rw [hrun, ha]
      constructor
      · simp only [List.map_cons, List.length_cons]
        rw [List.range'_succ]
        simp only [List.map_cons]
        rw [hih.1]
      · simp only [List.length_cons]
        omega

/-- Claim C3: an alert is allocated for a frame exactly when its
new-detections list is non-empty; its id is the literal "ALERT" followed by
the counter zero-padded to 3 digits, its description is
"Violation(s) detected: " followed by the comma-joined new labels; the
counter increments by exactly 1 on an alert-producing frame and by 0
otherwise; ids come from strictly increasing counters and are never reused
over a whole run. -/
theorem alert_allocation :
    (∀ (c : Nat) (news : List String), ((alertStep c news).1.isSome = true ↔ news ≠ [])) ∧
    (∀ (c : Nat) (news : List String), news ≠ [] →
      alertStep c news
        = (some { id := alertId c,
                  description := "Violation(s) detected: " ++ String.intercalate ", " news },
           c + 1)) ∧
    (∀ c : Nat, alertStep c [] = (none, c)) ∧
    (∀ (cfg : Config) (now : Int) (ts : String) (det : DetectorOutput) (st : PipelineState),
      ((processFrame cfg now ts det st).2.alert.isSome = true
          ↔ (processFrame cfg now ts det st).2.new_detections ≠ []) ∧
      ((processFrame cfg now ts det st).2.alert.isSome = true →
        (processFrame cfg now ts det st).1.alert_counter = st.alert_counter + 1) ∧
      ((processFrame cfg now ts det st).2.alert = none →
        (processFrame cfg now ts det st).1.alert_counter = st.alert_counter)) ∧
    (∀ c1 c2 : Nat, c1 ≠ c2 → alertId c1 ≠ alertId c2) ∧
    (∀ (cfg : Config) (frames : List FrameInput) (st : PipelineState),
      ((alertsOf (runFrames cfg frames st).2).map (fun a => a.id)).Nodup ∧
      ((alertsOf (runFrames cfg frames st).2).map (fun a => a.id))
        = (List.range' st.alert_counter
            (alertsOf (runFrames cfg frames st).2).length).map alertId) := by
  refine ⟨?_, ?_, ?_, ?_, ?_, ?_⟩
  · intro c news
    cases news <;> simp [alertStep]
  · intro c news h
    have : news.isEmpty = false := by
      cases news with
      | nil => exact absurd rfl h
      | cons a l => rfl
    simp [alertStep, this]
  · intro c; rfl
  · intro cfg now ts det st
    rcases processFrame_alert_spec cfg now ts det st with ⟨h1, h2, h3⟩ | ⟨d, h1, h2, h3⟩
    · refine ⟨?_, ?_, fun _ => h2⟩
      · rw [h1, h3]; simp
      · rw [h1]; simp
    · refine ⟨?_, fun _ => h2, ?_⟩
      · rw [h1]; simpa using h3
      · rw [h1]; intro hc; cases hc
  · intro c1 c2 hne heq
    exact hne (alertId_injective heq)
  · intro cfg frames st
    have h := runFrames_alert_ids cfg frames st
    refine ⟨?_, h.1⟩
    rw [h.1]
    exact (List.nodup_range' _ _ 1 (by omega)).map alertId_injective

/-- Witness for C3: a non-empty new-labels list at counter 7 yields
"ALERT007" with the expected description and counter 8; a two-frame run
re-alerting on "fire" after the cooldown produces distinct ids
["ALERT001", "ALERT002"]. -/
theorem alert_allocation_witness :
    alertStep 7 ["fire"]
      = (some { id := alertId 7, description := "Violation(s) detected: " ++
          String.intercalate ", " ["fire"] }, 8) ∧
    alertId 7 = "ALERT007" ∧
    alertStep 3 [] = (none, 3) ∧
    alertId 1 ≠ alertId 2 ∧
    ((alertsOf (runFrames ⟨0, true, false, true⟩
        [(0, "t0", Except.ok [⟨"fire", 1⟩]), (12, "t1", Except.ok [⟨"fire", 1⟩])]
        ⟨fun _ => none, 1, false, none⟩).2).map (fun a => a.id)).Nodup ∧
    (alertsOf (runFrames ⟨0, true, false, true⟩
        [(0, "t0", Except.ok [⟨"fire", 1⟩]), (12, "t1", Except.ok [⟨"fire", 1⟩])]
        ⟨fun _ => none, 1, false, none⟩).2).map (fun a => a.id)
      = ["ALERT001", "ALERT002"] :=
  ⟨alert_allocation.2.1 7 ["fire"] (by decide),
    by decide,
    alert_allocation.2.2.1 3,
    alert_allocation.2.2.2.2.1 1 2 (by decide),
    (alert_allocation.2.2.2.2.2 ⟨0, true, false, true⟩
        [(0, "t0", Except.ok [⟨"fire", 1⟩]), (12, "t1", Except.ok [⟨"fire", 1⟩])]
        ⟨fun _ => none, 1, false, none⟩).1,
    by decide⟩

/-! ## Dispatcher lemmas -/

theorem attemptSend_phone (net : String → NetResponse) (p : String) :
    (attemptSend net p).phone = p := by
  rcases h : net p with e | ⟨status, ok, msg⟩
  · simp [attemptSend, h]
  · by_cases hs : status = 200
    · cases ok <;> simp [attemptSend, h, hs]
    · simp [attemptSend, h, hs]

theorem map_attemptSend_phone (net : String → NetResponse) (phones : List String) :
    (phones.map (attemptSend net)).map (fun r => r.phone) = phones := by
  rw [List.map_map]
  have : ∀ p ∈ phones, ((fun r : RecipientOutcome => r.phone) ∘ attemptSend net) p = id p := by
    intro p _
    exact attemptSend_phone net p
  rw [List.map_congr_left this, List.map_id]

theorem fanout_success_iff (net : String → NetResponse) (phones : List String) :
    (fanout net phones).success = true
      ↔ ∃ r ∈ (fanout net phones).results, r.success = true := by
  show decide (0 < _) = true ↔ _
  rw [decide_eq_true_iff, List.length_pos, Ne, List.filter_eq_nil_iff]
  push_neg
  simp [fanout, List.mem_map]

/-- Claim C4: dispatching a message to a non-empty recipient list attempts
every recipient independently — the results list has exactly one entry per
recipient, each a function of that recipient's own network response, and
every recipient is attempted no matter what the others' responses are; the
aggregate reports success exactly when at least one recipient succeeded,
with success_count the number of successful recipients; in particular with
3 recipients where recipient 2 fails and 1 and 3 succeed, success_count = 2
and the per-recipient outcomes are success, failure, success. -/
theorem fanout_independent_aggregation :
    (∀ (net : String → NetResponse) (msg : String) (phones : List String),
      msg ≠ "" → phones ≠ [] →
        send_message_to_whatsapp_endpoint net msg phones = .dispatched (fanout net phones) ∧
        (fanout net phones).results = phones.map (attemptSend net) ∧
        attemptedCalls (send_message_to_whatsapp_endpoint net msg phones) = phones ∧
        (fanout net phones).success_count
          = ((fanout net phones).results.filter (fun r => r.success)).length ∧
        ((fanout net phones).success = true
          ↔ ∃ r ∈ (fanout net phones).results, r.success = true)) ∧
    (∀ (net : String → NetResponse) (p1 p2 p3 : String),
      (attemptSend net p1).success = true → (attemptSend net p2).success = false →
      (attemptSend net p3).success = true →
        (fanout net [p1, p2, p3]).success_count = 2 ∧
        (fanout net [p1, p2, p3]).success = true ∧
        (fanout net [p1, p2, p3]).results
          = [attemptSend net p1, attemptSend net p2, attemptSend net p3]) := by
  constructor
  · intro net msg phones hmsg hphones
    have hep : send_message_to_whatsapp_endpoint net msg phones
        = .dispatched (fanout net phones) := by
      simp [send_message_to_whatsapp_endpoint, hmsg, hphones]
    refine ⟨hep, rfl, ?_, rfl, fanout_success_iff net phones⟩
    rw [hep]
    show ((fanout net phones).results).map (fun r => r.phone) = phones
    exact map_attemptSend_phone net phones
  · intro net p1 p2 p3 h1 h2 h3
    refine ⟨?_, ?_, rfl⟩
    · show (List.filter (fun r => r.success)
        [attemptSend net p1, attemptSend net p2, attemptSend net p3]).length = 2
      simp [List.filter_cons, h1, h2, h3]
    · show decide (0 < (List.filter (fun r => r.success)
        [attemptSend net p1, attemptSend net p2, attemptSend net p3]).length) = true
      simp [List.filter_cons, h1, h2, h3]

/-- Witness for C4: three recipients "a", "b", "c" where "b" raises and the
others return HTTP 200 success — all three are attempted, success_count = 2,
and the outcomes are success, failure, success. -/
theorem fanout_independent_aggregation_witness :
    send_message_to_whatsapp_endpoint
        (fun p => if p = "b" then NetResponse.exn "boom" else NetResponse.http 200 true "ok")
        "hi" ["a", "b", "c"]
      = .dispatched (fanout
          (fun p => if p = "b" then NetResponse.exn "boom" else NetResponse.http 200 true "ok")
          ["a", "b", "c"]) ∧
    attemptedCalls (send_message_to_whatsapp_endpoint
        (fun p => if p = "b" then NetResponse.exn "boom" else NetResponse.http 200 true "ok")
        "hi" ["a", "b", "c"]) = ["a", "b", "c"] ∧
    (fanout (fun p => if p = "b" then NetResponse.exn "boom" else NetResponse.http 200 true "ok")
        ["a", "b", "c"]).success_count = 2 ∧
    (fanout (fun p => if p = "b" then NetResponse.exn "boom" else NetResponse.http 200 true "ok")
        ["a", "b", "c"]).success = true ∧
    (fanout (fun p => if p = "b" then NetResponse.exn "boom" else NetResponse.http 200 true "ok")
        ["a", "b", "c"]).results
      = [⟨"a", true, none⟩, ⟨"b", false, some "boom"⟩, ⟨"c", true, none⟩] :=
  ⟨(fanout_independent_aggregation.1
      (fun p => if p = "b" then NetResponse.exn "boom" else NetResponse.http 200 true "ok")
      "hi" ["a", "b", "c"] (by decide) (by decide)).1,
    (fanout_independent_aggregation.1
      (fun p => if p = "b" then NetResponse.exn "boom" else NetResponse.http 200 true "ok")
      "hi" ["a", "b", "c"] (by decide) (by decide)).2.2.1,
    (fanout_independent_aggregation.2
      (fun p => if p = "b" then NetResponse.exn "boom" else NetResponse.http 200 true "ok")
      "a" "b" "c" (by decide) (by decide) (by decide)).1,
    (fanout_independent_aggregation.2
      (fun p => if p = "b" then NetResponse.exn "boom" else NetResponse.http 200 true "ok")
      "a" "b" "c" (by decide) (by decide) (by decide)).2.1,
    by decide⟩

/-- Claim C5: every dispatch request (text, image with a file, video with a
file) made while the recipient list is empty returns a failure outcome
(success = false), attempts zero network calls, and — once past the payload
check — returns the "No phone numbers configured" early failure. -/
theorem empty_recipient_dispatch (net : String → NetResponse) (msg : String)
    (img vid : UploadFile) :
    (send_message_to_whatsapp_endpoint net msg []).isSuccess = false ∧
    attemptedCalls (send_message_to_whatsapp_endpoint net msg []) = [] ∧
    (attemptedCalls (send_message_to_whatsapp_endpoint net msg [])).length = 0 ∧
    (msg ≠ "" → send_message_to_whatsapp_endpoint net msg []
        = .earlyFailure "No phone numbers configured") ∧
    (send_image_to_whatsapp_endpoint net (some img) []).isSuccess = false ∧
    attemptedCalls (send_image_to_whatsapp_endpoint net (some img) []) = [] ∧
    send_image_to_whatsapp_endpoint net (some img) []
      = .earlyFailure "No phone numbers configured" ∧
    (send_video_to_whatsapp_endpoint net (some vid) []).isSuccess = false ∧
    attemptedCalls (send_video_to_whatsapp_endpoint net (some vid) []) = [] ∧
    send_video_to_whatsapp_endpoint net (some vid) []
      = .earlyFailure "No phone numbers configured" := by
  by_cases hmsg : msg = ""
  · subst hmsg
    exact ⟨rfl, rfl, rfl, fun h => absurd rfl h, rfl, rfl, rfl, rfl, rfl, rfl⟩
  · have hep : send_message_to_whatsapp_endpoint net msg []
        = .earlyFailure "No phone numbers configured" := by
      simp [send_message_to_whatsapp_endpoint, hmsg]
    exact ⟨by rw [hep]; rfl, by rw [hep]; rfl, by rw [hep]; rfl, fun _ => hep,
      rfl, rfl, rfl, rfl, rfl, rfl⟩

/-- Witness for C5 at a concrete message, files, and network. -/
theorem empty_recipient_dispatch_witness :
    send_message_to_whatsapp_endpoint (fun _ => NetResponse.exn "x") "hi" []
      = .earlyFailure "No phone numbers configured" ∧
    (send_message_to_whatsapp_endpoint (fun _ => NetResponse.exn "x") "hi" []).isSuccess
      = false ∧
    attemptedCalls (send_message_to_whatsapp_endpoint (fun _ => NetResponse.exn "x") "hi" [])
      = [] :=
  ⟨(empty_recipient_dispatch (fun _ => NetResponse.exn "x") "hi" ⟨"f.jpg", "c"⟩
      ⟨"g.mp4", "d"⟩).2.2.2.1 (by decide),
    (empty_recipient_dispatch (fun _ => NetResponse.exn "x") "hi" ⟨"f.jpg", "c"⟩
      ⟨"g.mp4", "d"⟩).1,
    (empty_recipient_dispatch (fun _ => NetResponse.exn "x") "hi" ⟨"f.jpg", "c"⟩
      ⟨"g.mp4", "d"⟩).2.1⟩

end NotificationEngine
